import Mathlib

/-!
Shallow embedding of the zbec read-through two-tier cache orchestrator
(source file be_cache.go) and proofs about the claims of its
specification.

Go values passed around as `interface{}` are modelled by `GoVal`
(nil, a loaded value, or the reserved NoEntry marker); Go errors are
modelled by `GoErr`, with `GoErr.wrap` standing for
`zerrors.WithMessage(err, msg)` (a message attached to a cause, the
cause chain preserved).  The two cache tiers are key/value stores whose
`Get`/`Set`/`Del` can be made to fail; every attempted Set is recorded
in a write log together with the TTL passed to the backend, and
counters record how many times each tier and the loader were consulted.
-/

namespace Zbec

/-- Errors of the orchestrator.  `noEntry` is the sentinel `errs.NoEntry`
(a negative marker read back from a cache tier), `errNoEntry` is
`errs.ErrNoEntry` (no record / confirmed not found), `backend` is an
arbitrary backend failure, `loaderErr` an arbitrary loader failure,
`nilResult` the `db加载结果不能为nil` contract-violation error,
`wrap` is `zerrors.WithMessage`. -/
inductive GoErr where
  | noEntry
  | errNoEntry
  | backend (code : Nat)
  | loaderErr (code : Nat)
  | nilResult
  | encodeFail
  | setFail
  | delFail
  | loaderNotRegistered (space : String)
  | unhandledNil
  | wrap (msg : String) (cause : GoErr)
deriving DecidableEq, Repr

/-- Rendering of an error to its message string (`err.Error()` in Go);
the texts of the sentinel errors live in the `errs` package and are
modelled here, wrapped errors render in the `zerrors` style
`msg: cause`. -/
def GoErr.msg : GoErr → String
  | .noEntry => "条目不存在"
  | .errNoEntry => "条目不存在"
  | .backend c => "backend error " ++ toString c
  | .loaderErr c => "loader error " ++ toString c
  | .nilResult => "db加载结果不能为nil"
  | .encodeFail => "msgpack encode error"
  | .setFail => "cache set error"
  | .delFail => "cache del error"
  | .loaderNotRegistered s => "空间未注册加载器 <" ++ s ++ ">"
  | .unhandledNil => "未对nil数据做处理"
  | .wrap m c => m ++ ": " ++ GoErr.msg c

/-- Root cause of an error, chasing through wraps (what
`errors.Is`-style cause chasing bottoms out at). -/
def GoErr.cause : GoErr → GoErr
  | .wrap _ c => GoErr.cause c
  | e => e

/-- A Go `interface{}` value as used by the orchestrator: the nil
interface, a loaded value (payloads abstracted to `Nat`), or the
reserved `NoEntry` marker stored to represent a confirmed-absent key. -/
inductive GoVal where
  | nilv
  | val (v : Nat)
  | marker
deriving DecidableEq, Repr

/-- State of one key in a cache tier: no record, a positive value, the
negative marker, or a key whose read fails with a backend error. -/
inductive CEntry where
  | absent
  | pos (v : Nat)
  | neg
  | broken (code : Nat)
deriving DecidableEq, Repr

/-- A cache tier (`cachedb.ICacheDB`): a store from canonical path to
entry, plus flags making its `Set`/`Del` fail. -/
structure CacheDB where
  store : String → CEntry
  setFails : Bool
  delFails : Bool

/-- `ICacheDB.Get`: a positive entry yields the value, a negative
marker yields the `NoEntry` sentinel error, no record yields
`ErrNoEntry`, and a broken key yields a backend error. -/
def CacheDB.get (db : CacheDB) (p : String) : GoVal × Option GoErr :=
  match db.store p with
  | .pos v => (.val v, none)
  | .neg => (.nilv, some .noEntry)
  | .absent => (.nilv, some .errNoEntry)
  | .broken c => (.nilv, some (.backend c))

/-- `ICacheDB.Set`: on failure the store is unchanged and an error is
returned; on success the entry is replaced (a stored value becomes a
positive entry, the stored marker becomes a negative entry; the nil
interface is never written by the orchestrator). -/
def CacheDB.set (db : CacheDB) (p : String) (a : GoVal) : CacheDB × Option GoErr :=
  if db.setFails then (db, some .setFail)
  else
    ({ db with store := fun q =>
        if q = p then
          (match a with
           | .val v => CEntry.pos v
           | .marker => CEntry.neg
           | .nilv => CEntry.neg)
        else db.store q }, none)

/-- `ICacheDB.Del`: removes the record for the key, or fails. -/
def CacheDB.del (db : CacheDB) (p : String) : CacheDB × Option GoErr :=
  if db.delFails then (db, some .delFail)
  else ({ db with store := fun q => if q = p then CEntry.absent else db.store q }, none)

/-- Modelled from the spec: the `query` package (not under src/) derives
a canonical path deterministically from the (namespace, identifier)
pair; `space` is the namespace, `key` the identifier. -/
structure Query where
  space : String
  key : String
deriving DecidableEq, Repr

/-- Modelled from the spec: the canonical path, a deterministic string
derived from the (namespace, identifier) pair, injective on valid
queries. -/
def Query.fullPath (q : Query) : String := q.space ++ ":" ++ q.key

/-- Modelled from the spec: `query.NewQuery` validates that both the
namespace and the identifier are non-empty before the query may be
used, failing fast (no query value is produced) otherwise. -/
def NewQuery (space key : String) : Option Query :=
  if space = "" ∨ key = "" then none else some ⟨space, key⟩

/-- A loader (`ILoader`): its name (the namespace it serves), the
result of `Load` for the query under consideration (value and error),
and the TTL returned by `Expire`. -/
structure ILoader where
  name : String
  loadVal : GoVal
  loadErr : Option GoErr
  expire : Nat
deriving DecidableEq, Repr

/-- One attempted cache write: the canonical path, the value-or-marker
written, and the TTL passed to the backend. -/
structure Write where
  path : String
  val : GoVal
  ttl : Nat
deriving DecidableEq, Repr

/-- Orchestrator configuration (`BECache` fields set at construction):
whether a local tier is configured, the fixed local TTL
(`local_cdb_ex`), the negative-entry caching flag and TTL
(`cache_no_entry`, `cache_no_entry_ex`), the isolation-copy flag
(`deepcopy_result`), and whether msgpack encoding of the loaded value
succeeds. -/
structure Config where
  localConfigured : Bool
  local_cdb_ex : Nat
  cache_no_entry : Bool
  cache_no_entry_ex : Nat
  deepcopy_result : Bool
  encodeOk : Bool
deriving DecidableEq, Repr

/-- Mutable world threaded through one call: the two tiers, the logs of
attempted writes per tier, the count of warnings logged, and counters
of tier reads and loader invocations. -/
structure St where
  localDB : CacheDB
  remoteDB : CacheDB
  localWrites : List Write
  remoteWrites : List Write
  warnings : Nat
  localGets : Nat
  remoteGets : Nat
  loaderCalls : Nat

/-- `localCacheSet`: if a local tier is configured, Set with the fixed
local TTL, the returned error ignored. -/
def localCacheSet (cfg : Config) (st : St) (q : Query) (a : GoVal) : St :=
  if cfg.localConfigured then
    let r := st.localDB.set q.fullPath a
    { st with localDB := r.1,
              localWrites := st.localWrites ++ [⟨q.fullPath, a, cfg.local_cdb_ex⟩] }
  else st

/-- Set on the remote tier with the given TTL; a failure is logged as a
warning and swallowed. -/
def remoteSet (st : St) (q : Query) (a : GoVal) (ex : Nat) : St :=
  let r := st.remoteDB.set q.fullPath a
  let st1 := { st with remoteDB := r.1,
                       remoteWrites := st.remoteWrites ++ [⟨q.fullPath, a, ex⟩] }
  match r.2 with
  | some _ => { st1 with warnings := st1.warnings + 1 }
  | none => st1

/-- `cacheSet`: always write the local tier; for the negative marker,
skip the remote write unless negative-entry caching is enabled and then
use the negative-entry TTL instead of the loader TTL. -/
def cacheSet (cfg : Config) (st : St) (q : Query) (a : GoVal) (loader : ILoader) : St :=
  let st1 := localCacheSet cfg st q a
  match a with
  | .marker =>
      if cfg.cache_no_entry then remoteSet st1 q .marker cfg.cache_no_entry_ex
      else st1
  | _ => remoteSet st1 q a loader.expire

/-- Remote half of `cacheGet`: a positive hit is promoted into the
local tier and returned; a negative hit writes the marker to the local
tier and returns the `NoEntry` sentinel; no record returns
`ErrNoEntry`; any other error is wrapped as a cache-read failure. -/
def cacheGetRemote (cfg : Config) (st : St) (q : Query) : St × GoVal × Option GoErr :=
  let st1 := { st with remoteGets := st.remoteGets + 1 }
  match st1.remoteDB.get q.fullPath with
  | (out, none) => (localCacheSet cfg st1 q out, out, none)
  | (_, some .noEntry) => (localCacheSet cfg st1 q .marker, .nilv, some .noEntry)
  | (_, some .errNoEntry) => (st1, .nilv, some .errNoEntry)
  | (_, some e) => (st1, .nilv, some (.wrap "缓存加载失败" e))

/-- `cacheGet`: if a local tier is configured, a positive or negative
local hit short-circuits; any other local outcome falls through to the
remote tier. -/
def cacheGet (cfg : Config) (st : St) (q : Query) : St × GoVal × Option GoErr :=
  if cfg.localConfigured then
    match st.localDB.get q.fullPath with
    | (out, none) => ({ st with localGets := st.localGets + 1 }, out, none)
    | (out, some .noEntry) => ({ st with localGets := st.localGets + 1 }, out, some .noEntry)
    | (_, some _) => cacheGetRemote cfg { st with localGets := st.localGets + 1 } q
  else cacheGetRemote cfg st q

/-- `loadDB`: invoke the loader.  Success with a nil value is the
contract-violation error and nothing is cached; success caches the
value in both tiers and returns it; `ErrNoEntry` caches the negative
marker and is returned; any other failure (optionally after deleting
the remote entry) is wrapped as a db-load failure. -/
def loadDB (cfg : Config) (st : St) (q : Query) (loader : ILoader)
    (delCacheOnErr : Bool) : St × GoVal × Option GoErr :=
  let st0 := { st with loaderCalls := st.loaderCalls + 1 }
  match loader.loadErr with
  | none =>
      match loader.loadVal with
      | .nilv => (st0, .nilv, some .nilResult)
      | a => (cacheSet cfg st0 q a loader, a, none)
  | some e =>
      if e = .errNoEntry then
        (cacheSet cfg st0 q .marker loader, .nilv, some .errNoEntry)
      else
        let st1 :=
          if delCacheOnErr then
            let r := st0.remoteDB.del q.fullPath
            match r.2 with
            | some _ => { st0 with remoteDB := r.1, warnings := st0.warnings + 1 }
            | none => { st0 with remoteDB := r.1 }
          else st0
        (st1, .nilv, some (.wrap "db加载失败" e))

/-- `query`: cache lookup first; a clean result (value or cached
negative marker) is returned; otherwise load from the loader, and on a
loader-step failure either surface it alone (when the cache outcome was
a clean no-record miss) or combine it with the retained cache failure
(the cache failure primary, the loader failure message appended). -/
def query (cfg : Config) (st : St) (q : Query) (loader : ILoader) :
    St × GoVal × Option GoErr :=
  match cacheGet cfg st q with
  | (st1, out, none) => (st1, out, none)
  | (st1, out, some .noEntry) => (st1, out, some .noEntry)
  | (st1, _, some g) =>
      match loadDB cfg st1 q loader false with
      | (st2, out2, none) => (st2, out2, none)
      | (st2, _, some le) =>
          if g = .errNoEntry then (st2, .nilv, some le)
          else (st2, .nilv, some (.wrap (GoErr.msg le) g))

/-- Result of the function run under the single-flight: either the
msgpack byte encoding of the value (isolation-copy mode) or the
reflected value (shared-reference mode). -/
inductive SFVal where
  | bytes (payload : GoVal)
  | refVal (v : GoVal)
deriving DecidableEq, Repr

/-- Body of the closure handed to `sf.Do` in `getWithLoader`: run
`query`; on success encode the value when isolation-copy is enabled (a
failed encode returns the partial buffer together with the encode
error) or hand back the reflected value. -/
def sfBody (cfg : Config) (st : St) (q : Query) (loader : ILoader) :
    St × Option SFVal × Option GoErr :=
  match query cfg st q loader with
  | (st1, _, some e) => (st1, none, some e)
  | (st1, out, none) =>
      match out with
      | .nilv => (st1, none, none)
      | o =>
          if cfg.deepcopy_result then
            if cfg.encodeOk then (st1, some (.bytes o), none)
            else (st1, some (.bytes .nilv), some .encodeFail)
          else (st1, some (.refVal o), none)

/-- Outcome of a Get-family call as seen by the caller: the value
delivered into the destination, or a failure. -/
inductive GetOut where
  | ok (delivered : GoVal)
  | fail (e : GoErr)
deriving DecidableEq, Repr

/-- Message of the outer wrap `加载失败<path>` added by
`getWithLoader` to every failing call. -/
def loadFailMsg (q : Query) : String := "加载失败<" ++ q.fullPath ++ ">"

/-- `getWithLoader` (the single execution run under the single-flight):
a failure has the cached-marker sentinel converted to `ErrNoEntry` and
is wrapped with the canonical path; a nil result is the defensive
`未对nil数据做处理` error; otherwise the bytes are decoded (or the
reflected value assigned) into the caller's destination. -/
def getWithLoader (cfg : Config) (st : St) (q : Query) (loader : ILoader) :
    St × GetOut :=
  match sfBody cfg st q loader with
  | (st1, _, some e) =>
      let e2 := match e with | .noEntry => GoErr.errNoEntry | x => x
      (st1, .fail (.wrap (loadFailMsg q) e2))
  | (st1, out, none) =>
      match out with
      | none => (st1, .fail .unhandledNil)
      | some (.bytes p) => (st1, .ok p)
      | some (.refVal o) => (st1, .ok o)

/-- `getLoader`: lookup in the registered-loader map. -/
def getLoader (loaders : List (String × ILoader)) (space : String) : Option ILoader :=
  (loaders.find? (fun kv => kv.1 == space)).map (fun kv => kv.2)

/-- `GetWithContext` (with a nil context): resolve the loader for the
namespace, failing with the loader-not-registered error when none is
bound, and delegate to `getWithLoader`. -/
def GetWithContext (cfg : Config) (loaders : List (String × ILoader))
    (st : St) (q : Query) : St × GetOut :=
  match getLoader loaders q.space with
  | none => (st, .fail (.loaderNotRegistered q.space))
  | some l => getWithLoader cfg st q l

/-- Whether the configured local tier short-circuits the read-through
algorithm for this key (a positive or negative local hit). -/
def localShortCircuits (cfg : Config) (st : St) (q : Query) : Bool :=
  cfg.localConfigured &&
    (match st.localDB.store q.fullPath with
     | .pos _ => true
     | .neg => true
     | _ => false)

/-- Whether a call outcome is a failure whose root cause is the given
error. -/
def GetOut.causeIs : GetOut → GoErr → Bool
  | .fail e, r => decide (GoErr.cause e = r)
  | .ok _, _ => false

/-! Concrete fixtures used by the witnesses and counterexamples. -/

/-- A concrete query. -/
def wq : Query := ⟨"sp", "k"⟩

/-- A fresh state whose local tier holds `l` and whose remote tier
holds `r` at every key, with no injected Set/Del failures. -/
def mkSt (l r : CEntry) : St :=
  ⟨⟨fun _ => l, false, false⟩, ⟨fun _ => r, false, false⟩, [], [], 0, 0, 0, 0⟩

/-- Configuration with a local tier, negative caching on, shared
reference mode. -/
def wcfg : Config := ⟨true, 1, true, 5, false, true⟩

/-- Configuration without a local tier. -/
def ncfg : Config := ⟨false, 1, true, 5, false, true⟩

/-- A loader succeeding with value `v`. -/
def okLoader (v : Nat) : ILoader := ⟨"sp", .val v, none, 30⟩

/-- A loader reporting confirmed-not-found. -/
def nfLoader : ILoader := ⟨"sp", .nilv, some .errNoEntry, 30⟩

/-- A loader violating the contract: success together with a nil
value. -/
def nilLoader : ILoader := ⟨"sp", .nilv, none, 30⟩

/-- A loader failing with an arbitrary (non-not-found) error. -/
def failLoader (c : Nat) : ILoader := ⟨"sp", .nilv, some (.loaderErr c), 30⟩

/-! Bookkeeping lemmas: the cache-write helpers never touch the read
and load counters, and `loadDB` invokes the loader exactly once. -/

@[simp]
theorem localCacheSet_loaderCalls (cfg : Config) (st : St) (q : Query) (a : GoVal) :
    (localCacheSet cfg st q a).loaderCalls = st.loaderCalls := by
  simp only [localCacheSet]; split <;> rfl

@[simp]
theorem localCacheSet_remoteGets (cfg : Config) (st : St) (q : Query) (a : GoVal) :
    (localCacheSet cfg st q a).remoteGets = st.remoteGets := by
  simp only [localCacheSet]; split <;> rfl

@[simp]
theorem localCacheSet_localGets (cfg : Config) (st : St) (q : Query) (a : GoVal) :
    (localCacheSet cfg st q a).localGets = st.localGets := by
  simp only [localCacheSet]; split <;> rfl

@[simp]
theorem remoteSet_loaderCalls (st : St) (q : Query) (a : GoVal) (ex : Nat) :
    (remoteSet st q a ex).loaderCalls = st.loaderCalls := by
  simp only [remoteSet]; split <;> rfl

@[simp]
theorem remoteSet_remoteGets (st : St) (q : Query) (a : GoVal) (ex : Nat) :
    (remoteSet st q a ex).remoteGets = st.remoteGets := by
  simp only [remoteSet]; split <;> rfl

@[simp]
theorem remoteSet_localGets (st : St) (q : Query) (a : GoVal) (ex : Nat) :
    (remoteSet st q a ex).localGets = st.localGets := by
  simp only [remoteSet]; split <;> rfl

@[simp]
theorem cacheSet_loaderCalls (cfg : Config) (st : St) (q : Query) (a : GoVal)
    (loader : ILoader) : (cacheSet cfg st q a loader).loaderCalls = st.loaderCalls := by
  rcases a <;> simp only [cacheSet] <;> (try split) <;> simp

@[simp]
theorem cacheSet_remoteGets (cfg : Config) (st : St) (q : Query) (a : GoVal)
    (loader : ILoader) : (cacheSet cfg st q a loader).remoteGets = st.remoteGets := by
  rcases a <;> simp only [cacheSet] <;> (try split) <;> simp

@[simp]
theorem cacheSet_localGets (cfg : Config) (st : St) (q : Query) (a : GoVal)
    (loader : ILoader) : (cacheSet cfg st q a loader).localGets = st.localGets := by
  rcases a <;> simp only [cacheSet] <;> (try split) <;> simp

@[simp]
theorem loadDB_loaderCalls (cfg : Config) (st : St) (q : Query) (loader : ILoader)
    (d : Bool) : (loadDB cfg st q loader d).1.loaderCalls = st.loaderCalls + 1 := by
  rcases he : loader.loadErr with _ | e <;> simp only [loadDB, he]
  · rcases hv : loader.loadVal <;> simp
  · split
    · simp
    · split <;> [skip; rfl]
      split <;> rfl

@[simp]
theorem loadDB_remoteGets (cfg : Config) (st : St) (q : Query) (loader : ILoader)
    (d : Bool) : (loadDB cfg st q loader d).1.remoteGets = st.remoteGets := by
  rcases he : loader.loadErr with _ | e <;> simp only [loadDB, he]
  · rcases hv : loader.loadVal <;> simp
  · split
    · simp
    · split <;> [skip; rfl]
      split <;> rfl

@[simp]
theorem loadDB_localGets (cfg : Config) (st : St) (q : Query) (loader : ILoader)
    (d : Bool) : (loadDB cfg st q loader d).1.localGets = st.localGets := by
  rcases he : loader.loadErr with _ | e <;> simp only [loadDB, he]
  · rcases hv : loader.loadVal <;> simp
  · split
    · simp
    · split <;> [skip; rfl]
      split <;> rfl

@[simp]
theorem localCacheSet_remoteWrites (cfg : Config) (st : St) (q : Query) (a : GoVal) :
    (localCacheSet cfg st q a).remoteWrites = st.remoteWrites := by
  simp only [localCacheSet]; split <;> rfl

@[simp]
theorem localCacheSet_remoteDB (cfg : Config) (st : St) (q : Query) (a : GoVal) :
    (localCacheSet cfg st q a).remoteDB = st.remoteDB := by
  simp only [localCacheSet]; split <;> rfl

@[simp]
theorem localCacheSet_warnings (cfg : Config) (st : St) (q : Query) (a : GoVal) :
    (localCacheSet cfg st q a).warnings = st.warnings := by
  simp only [localCacheSet]; split <;> rfl

@[simp]
theorem remoteSet_localWrites (st : St) (q : Query) (a : GoVal) (ex : Nat) :
    (remoteSet st q a ex).localWrites = st.localWrites := by
  simp only [remoteSet]; split <;> rfl

@[simp]
theorem remoteSet_localDB (st : St) (q : Query) (a : GoVal) (ex : Nat) :
    (remoteSet st q a ex).localDB = st.localDB := by
  simp only [remoteSet]; split <;> rfl

@[simp]
theorem remoteSet_remoteWrites (st : St) (q : Query) (a : GoVal) (ex : Nat) :
    (remoteSet st q a ex).remoteWrites = st.remoteWrites ++ [⟨q.fullPath, a, ex⟩] := by
  simp only [remoteSet]; split <;> rfl

theorem localCacheSet_localWrites_cfg (cfg : Config) (st : St) (q : Query) (a : GoVal)
    (hc : cfg.localConfigured = true) :
    (localCacheSet cfg st q a).localWrites
      = st.localWrites ++ [⟨q.fullPath, a, cfg.local_cdb_ex⟩] := by
  simp [localCacheSet, hc]

theorem localCacheSet_not_configured (cfg : Config) (st : St) (q : Query) (a : GoVal)
    (hc : cfg.localConfigured = false) : localCacheSet cfg st q a = st := by
  simp [localCacheSet, hc]

/-- When the configured local tier does not short-circuit, `cacheGet`
falls through to the remote tier (bumping the local read counter
exactly when a local tier is configured). -/
theorem cacheGet_fallsThrough (cfg : Config) (st : St) (q : Query)
    (hs : localShortCircuits cfg st q = false) :
    cacheGet cfg st q
      = cacheGetRemote cfg
          { st with localGets := if cfg.localConfigured then st.localGets + 1 else st.localGets }
          q := by
  rcases hloc : cfg.localConfigured
  · simp [cacheGet, hloc]
  · simp only [localShortCircuits, hloc, Bool.true_and] at hs
    rcases hl : st.localDB.store q.fullPath with _ | w | _ | c <;> simp [hl] at hs <;>
      simp [cacheGet, CacheDB.get, hloc, hl]

theorem cacheGetRemote_pos (cfg : Config) (st : St) (q : Query) (v : Nat)
    (hv : st.remoteDB.store q.fullPath = .pos v) :
    cacheGetRemote cfg st q
      = (localCacheSet cfg { st with remoteGets := st.remoteGets + 1 } q (.val v),
         .val v, none) := by
  simp [cacheGetRemote, CacheDB.get, hv]

theorem cacheGetRemote_neg (cfg : Config) (st : St) (q : Query)
    (hv : st.remoteDB.store q.fullPath = .neg) :
    cacheGetRemote cfg st q
      = (localCacheSet cfg { st with remoteGets := st.remoteGets + 1 } q .marker,
         .nilv, some .noEntry) := by
  simp [cacheGetRemote, CacheDB.get, hv]

theorem cacheGetRemote_absent (cfg : Config) (st : St) (q : Query)
    (hv : st.remoteDB.store q.fullPath = .absent) :
    cacheGetRemote cfg st q
      = ({ st with remoteGets := st.remoteGets + 1 }, .nilv, some .errNoEntry) := by
  simp [cacheGetRemote, CacheDB.get, hv]

theorem cacheGetRemote_broken (cfg : Config) (st : St) (q : Query) (b : Nat)
    (hv : st.remoteDB.store q.fullPath = .broken b) :
    cacheGetRemote cfg st q
      = ({ st with remoteGets := st.remoteGets + 1 }, .nilv,
         some (.wrap "缓存加载失败" (.backend b))) := by
  simp [cacheGetRemote, CacheDB.get, hv]

/-- After a cache miss that is not the cached negative marker, `query`
invokes the loader exactly once on the fall-through state and performs
no further tier read. -/
theorem query_afterMiss (cfg : Config) (st st1 : St) (q : Query) (loader : ILoader)
    (out : GoVal) (g : GoErr) (h : cacheGet cfg st q = (st1, out, some g))
    (hg : g ≠ GoErr.noEntry) :
    (query cfg st q loader).1.loaderCalls = st1.loaderCalls + 1
    ∧ (query cfg st q loader).1.remoteGets = st1.remoteGets
    ∧ (query cfg st q loader).1.localGets = st1.localGets := by
  rcases hld : loadDB cfg st1 q loader false with ⟨st2, out2, lerr⟩
  have hc : st2.loaderCalls = st1.loaderCalls + 1 := by
    have h2 := loadDB_loaderCalls cfg st1 q loader false
    rw [hld] at h2; simpa using h2
  have hr : st2.remoteGets = st1.remoteGets := by
    have h2 := loadDB_remoteGets cfg st1 q loader false
    rw [hld] at h2; simpa using h2
  have hl : st2.localGets = st1.localGets := by
    have h2 := loadDB_localGets cfg st1 q loader false
    rw [hld] at h2; simpa using h2
  rcases g with _ | _ | c | c | _ | _ | _ | _ | s | _ | ⟨m, c⟩
  · exact absurd rfl hg
  all_goals rcases lerr with _ | le <;> simp [query, h, hld, hc, hr, hl]

/-!  Claim theorems. -/

/-- Claim C2: for every Get-family call, a positive or negative hit on
a configured local tier short-circuits the whole algorithm (the state
is unchanged but for the local-read counter: no remote read, no loader
call, no write); otherwise the remote tier is consulted, a remote
positive hit is promoted into the local tier with the fixed local TTL
before the value is returned, a remote negative hit writes the negative
marker into the local tier and returns the negative outcome, and only a
remote no-record outcome or a remote backend error reaches the
loader. -/
theorem c2_tier_lookup (cfg : Config) (st : St) (q : Query) (loader : ILoader) :
    (cfg.localConfigured = true → ∀ v, st.localDB.store q.fullPath = .pos v →
      query cfg st q loader = ({ st with localGets := st.localGets + 1 }, .val v, none))
    ∧ (cfg.localConfigured = true → st.localDB.store q.fullPath = .neg →
      query cfg st q loader = ({ st with localGets := st.localGets + 1 }, .nilv, some .noEntry))
    ∧ (localShortCircuits cfg st q = false → ∀ v, st.remoteDB.store q.fullPath = .pos v →
      (query cfg st q loader).2 = (.val v, none)
      ∧ (query cfg st q loader).1.loaderCalls = st.loaderCalls
      ∧ (query cfg st q loader).1.remoteGets = st.remoteGets + 1
      ∧ (cfg.localConfigured = true →
          (query cfg st q loader).1.localWrites
            = st.localWrites ++ [⟨q.fullPath, .val v, cfg.local_cdb_ex⟩]))
    ∧ (localShortCircuits cfg st q = false → st.remoteDB.store q.fullPath = .neg →
      (query cfg st q loader).2 = (.nilv, some .noEntry)
      ∧ (query cfg st q loader).1.loaderCalls = st.loaderCalls
      ∧ (query cfg st q loader).1.remoteGets = st.remoteGets + 1
      ∧ (cfg.localConfigured = true →
          (query cfg st q loader).1.localWrites
            = st.localWrites ++ [⟨q.fullPath, .marker, cfg.local_cdb_ex⟩]))
    ∧ (localShortCircuits cfg st q = false → st.remoteDB.store q.fullPath = .absent →
      (query cfg st q loader).1.loaderCalls = st.loaderCalls + 1
      ∧ (query cfg st q loader).1.remoteGets = st.remoteGets + 1)
    ∧ (∀ b, localShortCircuits cfg st q = false → st.remoteDB.store q.fullPath = .broken b →
      (query cfg st q loader).1.loaderCalls = st.loaderCalls + 1
      ∧ (query cfg st q loader).1.remoteGets = st.remoteGets + 1) := by
  refine ⟨?_, ?_, ?_, ?_, ?_, ?_⟩
  · intro hc v hv
    simp [query, cacheGet, CacheDB.get, hc, hv]
  · intro hc hv
    simp [query, cacheGet, CacheDB.get, hc, hv]
  · intro hs v hv
    have h1 := cacheGet_fallsThrough cfg st q hs
    rw [cacheGetRemote_pos cfg
          { st with localGets := if cfg.localConfigured = true then st.localGets + 1 else st.localGets }
          q v hv] at h1
    simp only [query, h1, localCacheSet]
    rcases hloc : cfg.localConfigured <;> simp [hloc]
  · intro hs hv
    have h1 := cacheGet_fallsThrough cfg st q hs
    rw [cacheGetRemote_neg cfg
          { st with localGets := if cfg.localConfigured = true then st.localGets + 1 else st.localGets }
          q hv] at h1
    simp only [query, h1, localCacheSet]
    rcases hloc : cfg.localConfigured <;> simp [hloc]
  · intro hs hv
    have h1 := cacheGet_fallsThrough cfg st q hs
    rw [cacheGetRemote_absent cfg
          { st with localGets := if cfg.localConfigured = true then st.localGets + 1 else st.localGets }
          q hv] at h1
    have h2 := query_afterMiss cfg st _ q loader _ _ h1 (by simp)
    refine ⟨h2.1.trans ?_, h2.2.1.trans ?_⟩ <;>
      rcases hloc : cfg.localConfigured <;> simp [hloc]
  · intro b hs hv
    have h1 := cacheGet_fallsThrough cfg st q hs
    rw [cacheGetRemote_broken cfg
          { st with localGets := if cfg.localConfigured = true then st.localGets + 1 else st.localGets }
          q b hv] at h1
    have h2 := query_afterMiss cfg st _ q loader _ _ h1 (by simp)
    refine ⟨h2.1.trans ?_, h2.2.1.trans ?_⟩ <;>
      rcases hloc : cfg.localConfigured <;> simp [hloc]

/-- Witness for C2: a local positive hit is served from the local tier
alone, and with no local tier a remote positive hit is served from the
remote tier. -/
theorem c2_tier_lookup_witness :
    (query wcfg (mkSt (.pos 7) .absent) wq (okLoader 9)).2 = (.val 7, none)
    ∧ (query ncfg (mkSt .absent (.pos 8)) wq (okLoader 9)).2 = (.val 8, none) := by
  constructor
  · have h := (c2_tier_lookup wcfg (mkSt (.pos 7) .absent) wq (okLoader 9)).1 rfl 7 rfl
    rw [h]
  · exact ((c2_tier_lookup ncfg (mkSt .absent (.pos 8)) wq (okLoader 9)).2.2.1 rfl 8 rfl).1

/-- Claim C3 (amended): when the loader reports confirmed-not-found,
the negative marker is written to the local tier unconditionally (with
the fixed local TTL) and to the remote tier if and only if
negative-entry caching is enabled, then with the negative-entry TTL
rather than the loader TTL; the call returns the EntryNotFound outcome
when the cache lookup ended in a clean no-record miss, but when the
cache lookup failed with a backend read error the call instead returns
the combined failure whose primary cause is the cache-read failure with
the not-found message appended. -/
theorem c3_negative_write_policy (cfg : Config) (st : St) (q : Query) (loader : ILoader)
    (hle : loader.loadErr = some .errNoEntry) :
    (cfg.localConfigured = true →
      (loadDB cfg st q loader false).1.localWrites
        = st.localWrites ++ [⟨q.fullPath, .marker, cfg.local_cdb_ex⟩])
    ∧ (cfg.localConfigured = false →
      (loadDB cfg st q loader false).1.localWrites = st.localWrites)
    ∧ (cfg.cache_no_entry = true →
      (loadDB cfg st q loader false).1.remoteWrites
        = st.remoteWrites ++ [⟨q.fullPath, .marker, cfg.cache_no_entry_ex⟩])
    ∧ (cfg.cache_no_entry = false →
      (loadDB cfg st q loader false).1.remoteWrites = st.remoteWrites)
    ∧ ((loadDB cfg st q loader false).2 = (.nilv, some .errNoEntry))
    ∧ (localShortCircuits cfg st q = false → st.remoteDB.store q.fullPath = .absent →
      (getWithLoader cfg st q loader).2 = .fail (.wrap (loadFailMsg q) .errNoEntry))
    ∧ (∀ b, localShortCircuits cfg st q = false → st.remoteDB.store q.fullPath = .broken b →
      (getWithLoader cfg st q loader).2
        = .fail (.wrap (loadFailMsg q)
            (.wrap (GoErr.msg .errNoEntry) (.wrap "缓存加载失败" (.backend b))))) := by
  refine ⟨?_, ?_, ?_, ?_, ?_, ?_, ?_⟩
  · intro hc
    simp only [loadDB, hle]
    simp only [if_true]
    simp only [cacheSet]
    split <;> simp [localCacheSet_localWrites_cfg _ _ _ _ hc]
  · intro hc
    simp only [loadDB, hle]
    simp only [if_true]
    simp only [cacheSet]
    split <;> simp [localCacheSet_not_configured _ _ _ _ hc]
  · intro hcne
    simp only [loadDB, hle]
    simp [cacheSet, hcne]
  · intro hcne
    simp only [loadDB, hle]
    simp [cacheSet, hcne]
  · simp [loadDB, hle]
  · intro hs hv
    rcases hloc : cfg.localConfigured
    · simp [getWithLoader, sfBody, query, cacheGet, cacheGetRemote, CacheDB.get,
            loadDB, hle, hloc, hv]
    · simp only [localShortCircuits, hloc, Bool.true_and] at hs
      rcases hl : st.localDB.store q.fullPath with _ | w | _ | c <;> simp [hl] at hs <;>
        simp [getWithLoader, sfBody, query, cacheGet, cacheGetRemote, CacheDB.get,
              loadDB, hle, hloc, hl, hv]
  · intro b hs hv
    rcases hloc : cfg.localConfigured
    · simp [getWithLoader, sfBody, query, cacheGet, cacheGetRemote, CacheDB.get,
            loadDB, hle, hloc, hv]
    · simp only [localShortCircuits, hloc, Bool.true_and] at hs
      rcases hl : st.localDB.store q.fullPath with _ | w | _ | c <;> simp [hl] at hs <;>
        simp [getWithLoader, sfBody, query, cacheGet, cacheGetRemote, CacheDB.get,
              loadDB, hle, hloc, hl, hv]

/-- Counterexample for C3 as stated: the loader reports
confirmed-not-found, yet because the remote cache read failed with a
backend error the call does not return the EntryNotFound outcome — its
failure's root cause is the backend read error. -/
theorem c3_counterexample :
    nfLoader.loadErr = some .errNoEntry
    ∧ GetOut.causeIs (getWithLoader ncfg (mkSt .absent (.broken 7)) wq nfLoader).2
        .errNoEntry = false
    ∧ GetOut.causeIs (getWithLoader ncfg (mkSt .absent (.broken 7)) wq nfLoader).2
        (.backend 7) = true := by
  exact ⟨rfl, rfl, rfl⟩

/-- Witness for C3 (amended): on a clean miss the marker TTLs are as
described and the call returns the EntryNotFound outcome. -/
theorem c3_negative_write_policy_witness :
    (loadDB wcfg (mkSt .absent .absent) wq nfLoader false).1.localWrites
      = [⟨wq.fullPath, .marker, 1⟩]
    ∧ (loadDB wcfg (mkSt .absent .absent) wq nfLoader false).1.remoteWrites
      = [⟨wq.fullPath, .marker, 5⟩]
    ∧ (getWithLoader ncfg (mkSt .absent .absent) wq nfLoader).2
      = .fail (.wrap (loadFailMsg wq) .errNoEntry) := by
  refine ⟨?_, ?_, ?_⟩
  · exact (c3_negative_write_policy wcfg (mkSt .absent .absent) wq nfLoader rfl).1 rfl
  · exact (c3_negative_write_policy wcfg (mkSt .absent .absent) wq nfLoader rfl).2.2.1 rfl
  · exact (c3_negative_write_policy ncfg (mkSt .absent .absent) wq nfLoader rfl).2.2.2.2.2.1
      rfl rfl

/-- Claim C4: when the loader fails with an error other than
confirmed-not-found, a preceding clean no-record cache miss surfaces
the loader's failure alone, while a preceding cache backend read error
surfaces one combined error whose primary cause is the cache-read
failure with the loader failure's message appended as context. -/
theorem c4_loader_failure (cfg : Config) (st : St) (q : Query) (loader : ILoader)
    (e : GoErr) (hle : loader.loadErr = some e) (hne : e ≠ .errNoEntry) :
    (localShortCircuits cfg st q = false → st.remoteDB.store q.fullPath = .absent →
      (getWithLoader cfg st q loader).2
        = .fail (.wrap (loadFailMsg q) (.wrap "db加载失败" e)))
    ∧ (∀ b, localShortCircuits cfg st q = false →
        st.remoteDB.store q.fullPath = .broken b →
      (getWithLoader cfg st q loader).2
        = .fail (.wrap (loadFailMsg q)
            (.wrap (GoErr.msg (.wrap "db加载失败" e)) (.wrap "缓存加载失败" (.backend b))))
      ∧ GoErr.cause
          (GoErr.wrap (loadFailMsg q)
            (.wrap (GoErr.msg (.wrap "db加载失败" e)) (.wrap "缓存加载失败" (.backend b))))
          = .backend b) := by
  constructor
  · intro hs hv
    rcases hloc : cfg.localConfigured
    · simp [getWithLoader, sfBody, query, cacheGet, cacheGetRemote, CacheDB.get,
            loadDB, hle, hne, hloc, hv]
    · simp only [localShortCircuits, hloc, Bool.true_and] at hs
      rcases hl : st.localDB.store q.fullPath with _ | w | _ | c <;> simp [hl] at hs <;>
        simp [getWithLoader, sfBody, query, cacheGet, cacheGetRemote, CacheDB.get,
              loadDB, hle, hne, hloc, hl, hv]
  · intro b hs hv
    refine ⟨?_, by simp [GoErr.cause]⟩
    rcases hloc : cfg.localConfigured
    · simp [getWithLoader, sfBody, query, cacheGet, cacheGetRemote, CacheDB.get,
            loadDB, hle, hne, hloc, hv]
    · simp only [localShortCircuits, hloc, Bool.true_and] at hs
      rcases hl : st.localDB.store q.fullPath with _ | w | _ | c <;> simp [hl] at hs <;>
        simp [getWithLoader, sfBody, query, cacheGet, cacheGetRemote, CacheDB.get,
              loadDB, hle, hne, hloc, hl, hv]

/-- Witness for C4: a loader failure after a clean miss surfaces the
loader failure alone; after a broken remote read it surfaces the
combined error rooted at the backend failure. -/
theorem c4_loader_failure_witness :
    (getWithLoader ncfg (mkSt .absent .absent) wq (failLoader 3)).2
      = .fail (.wrap (loadFailMsg wq) (.wrap "db加载失败" (.loaderErr 3)))
    ∧ (getWithLoader ncfg (mkSt .absent (.broken 4)) wq (failLoader 3)).2
      = .fail (.wrap (loadFailMsg wq)
          (.wrap (GoErr.msg (.wrap "db加载失败" (.loaderErr 3)))
            (.wrap "缓存加载失败" (.backend 4)))) := by
  constructor
  · exact (c4_loader_failure ncfg (mkSt .absent .absent) wq (failLoader 3)
      (.loaderErr 3) rfl (by decide)).1 rfl rfl
  · exact ((c4_loader_failure ncfg (mkSt .absent (.broken 4)) wq (failLoader 3)
      (.loaderErr 3) rfl (by decide)).2 4 rfl rfl).1

/-- Claim C5 (amended): when the loader reports success together with a
nil value, no write to either cache tier occurs and the call fails; the
failure is the InvalidLoaderResult contract-violation error when the
cache lookup ended in a clean no-record miss, but after a cache backend
read error it is the combined failure whose primary cause is the
cache-read failure with the InvalidLoaderResult message appended. -/
theorem c5_nil_loader_result (cfg : Config) (st : St) (q : Query) (loader : ILoader)
    (hle : loader.loadErr = none) (hlv : loader.loadVal = .nilv) :
    (loadDB cfg st q loader false
      = ({ st with loaderCalls := st.loaderCalls + 1 }, .nilv, some .nilResult))
    ∧ (localShortCircuits cfg st q = false → st.remoteDB.store q.fullPath = .absent →
      (getWithLoader cfg st q loader).2 = .fail (.wrap (loadFailMsg q) .nilResult)
      ∧ (getWithLoader cfg st q loader).1.localWrites = st.localWrites
      ∧ (getWithLoader cfg st q loader).1.remoteWrites = st.remoteWrites)
    ∧ (∀ b, localShortCircuits cfg st q = false →
        st.remoteDB.store q.fullPath = .broken b →
      (getWithLoader cfg st q loader).2
        = .fail (.wrap (loadFailMsg q)
            (.wrap (GoErr.msg .nilResult) (.wrap "缓存加载失败" (.backend b))))
      ∧ (getWithLoader cfg st q loader).1.localWrites = st.localWrites
      ∧ (getWithLoader cfg st q loader).1.remoteWrites = st.remoteWrites) := by
  refine ⟨?_, ?_, ?_⟩
  · simp [loadDB, hle, hlv]
  · intro hs hv
    rcases hloc : cfg.localConfigured
    · simp [getWithLoader, sfBody, query, cacheGet, cacheGetRemote, CacheDB.get,
            loadDB, hle, hlv, hloc, hv]
    · simp only [localShortCircuits, hloc, Bool.true_and] at hs
      rcases hl : st.localDB.store q.fullPath with _ | w | _ | c <;> simp [hl] at hs <;>
        simp [getWithLoader, sfBody, query, cacheGet, cacheGetRemote, CacheDB.get,
              loadDB, hle, hlv, hloc, hl, hv]
  · intro b hs hv
    rcases hloc : cfg.localConfigured
    · simp [getWithLoader, sfBody, query, cacheGet, cacheGetRemote, CacheDB.get,
            loadDB, hle, hlv, hloc, hv]
    · simp only [localShortCircuits, hloc, Bool.true_and] at hs
      rcases hl : st.localDB.store q.fullPath with _ | w | _ | c <;> simp [hl] at hs <;>
        simp [getWithLoader, sfBody, query, cacheGet, cacheGetRemote, CacheDB.get,
              loadDB, hle, hlv, hloc, hl, hv]

/-- Counterexample for C5 as stated: the loader reports success with a
nil value, yet because the remote cache read failed with a backend
error the call's failure is not the InvalidLoaderResult error — its
root cause is the backend read error (no cache write occurs either
way). -/
theorem c5_counterexample :
    nilLoader.loadErr = none ∧ nilLoader.loadVal = .nilv
    ∧ GetOut.causeIs (getWithLoader ncfg (mkSt .absent (.broken 9)) wq nilLoader).2
        .nilResult = false
    ∧ GetOut.causeIs (getWithLoader ncfg (mkSt .absent (.broken 9)) wq nilLoader).2
        (.backend 9) = true := by
  exact ⟨rfl, rfl, rfl, rfl⟩

/-- Witness for C5 (amended): on a clean miss the call fails with the
InvalidLoaderResult error and neither tier is written. -/
theorem c5_nil_loader_result_witness :
    (getWithLoader wcfg (mkSt .absent .absent) wq nilLoader).2
      = .fail (.wrap (loadFailMsg wq) .nilResult)
    ∧ (getWithLoader wcfg (mkSt .absent .absent) wq nilLoader).1.localWrites = []
    ∧ (getWithLoader wcfg (mkSt .absent .absent) wq nilLoader).1.remoteWrites = [] := by
  exact (c5_nil_loader_result wcfg (mkSt .absent .absent) wq nilLoader rfl rfl).2.1 rfl rfl

/-- Claim C6 (amended): a previously cached negative marker — in the
local or the remote tier — always yields the EntryNotFound outcome, and
a fresh loader confirmed-not-found yields the identical outcome when
the cache lookup ended cleanly; but a fresh loader confirmed-not-found
after a cache backend read error yields the combined cache-read failure
instead of EntryNotFound. -/
theorem c6_entry_not_found_outcomes (cfg : Config) (st : St) (q : Query)
    (loader : ILoader) :
    (cfg.localConfigured = true → st.localDB.store q.fullPath = .neg →
      (getWithLoader cfg st q loader).2 = .fail (.wrap (loadFailMsg q) .errNoEntry))
    ∧ (localShortCircuits cfg st q = false → st.remoteDB.store q.fullPath = .neg →
      (getWithLoader cfg st q loader).2 = .fail (.wrap (loadFailMsg q) .errNoEntry))
    ∧ (loader.loadErr = some .errNoEntry → localShortCircuits cfg st q = false →
       st.remoteDB.store q.fullPath = .absent →
      (getWithLoader cfg st q loader).2 = .fail (.wrap (loadFailMsg q) .errNoEntry))
    ∧ (∀ b, loader.loadErr = some .errNoEntry → localShortCircuits cfg st q = false →
       st.remoteDB.store q.fullPath = .broken b →
      GetOut.causeIs (getWithLoader cfg st q loader).2 .errNoEntry = false
      ∧ GetOut.causeIs (getWithLoader cfg st q loader).2 (.backend b) = true) := by
  refine ⟨?_, ?_, ?_, ?_⟩
  · intro hc hv
    simp [getWithLoader, sfBody, query, cacheGet, CacheDB.get, hc, hv]
  · intro hs hv
    rcases hloc : cfg.localConfigured
    · simp [getWithLoader, sfBody, query, cacheGet, cacheGetRemote, CacheDB.get,
            hloc, hv]
    · simp only [localShortCircuits, hloc, Bool.true_and] at hs
      rcases hl : st.localDB.store q.fullPath with _ | w | _ | c <;> simp [hl] at hs <;>
        simp [getWithLoader, sfBody, query, cacheGet, cacheGetRemote, CacheDB.get,
              hloc, hl, hv]
  · intro hle hs hv
    rcases hloc : cfg.localConfigured
    · simp [getWithLoader, sfBody, query, cacheGet, cacheGetRemote, CacheDB.get,
            loadDB, hle, hloc, hv]
    · simp only [localShortCircuits, hloc, Bool.true_and] at hs
      rcases hl : st.localDB.store q.fullPath with _ | w | _ | c <;> simp [hl] at hs <;>
        simp [getWithLoader, sfBody, query, cacheGet, cacheGetRemote, CacheDB.get,
              loadDB, hle, hloc, hl, hv]
  · intro b hle hs hv
    rcases hloc : cfg.localConfigured
    · simp [getWithLoader, sfBody, query, cacheGet, cacheGetRemote, CacheDB.get,
            loadDB, hle, hloc, hv, GetOut.causeIs, GoErr.cause]
    · simp only [localShortCircuits, hloc, Bool.true_and] at hs
      rcases hl : st.localDB.store q.fullPath with _ | w | _ | c <;> simp [hl] at hs <;>
        simp [getWithLoader, sfBody, query, cacheGet, cacheGetRemote, CacheDB.get,
              loadDB, hle, hloc, hl, hv, GetOut.causeIs, GoErr.cause]

/-- Counterexample for C6 as stated: the loader freshly reports
confirmed-not-found, yet the caller does not receive the EntryNotFound
outcome because the remote cache read had failed with a backend
error. -/
theorem c6_counterexample :
    nfLoader.loadErr = some .errNoEntry
    ∧ GetOut.causeIs (getWithLoader ncfg (mkSt .absent (.broken 3)) wq nfLoader).2
        .errNoEntry = false := by
  exact ⟨rfl, rfl⟩

/-- Witness for C6 (amended): the cached-marker cases (local and
remote) and the fresh clean-miss case all produce the identical
EntryNotFound outcome. -/
theorem c6_entry_not_found_outcomes_witness :
    (getWithLoader wcfg (mkSt .neg .absent) wq (okLoader 1)).2
      = .fail (.wrap (loadFailMsg wq) .errNoEntry)
    ∧ (getWithLoader ncfg (mkSt .absent .neg) wq (okLoader 1)).2
      = .fail (.wrap (loadFailMsg wq) .errNoEntry)
    ∧ (getWithLoader ncfg (mkSt .absent .absent) wq nfLoader).2
      = .fail (.wrap (loadFailMsg wq) .errNoEntry) := by
  refine ⟨?_, ?_, ?_⟩
  · exact (c6_entry_not_found_outcomes wcfg (mkSt .neg .absent) wq (okLoader 1)).1 rfl rfl
  · exact (c6_entry_not_found_outcomes ncfg (mkSt .absent .neg) wq (okLoader 1)).2.1 rfl rfl
  · exact (c6_entry_not_found_outcomes ncfg (mkSt .absent .absent) wq nfLoader).2.2.1
      rfl rfl rfl

/-- Claim C7: even when the Set of both cache tiers fails, a
successful load still returns the loaded value to the caller and a
confirmed-not-found load still returns the EntryNotFound outcome; the
local-tier write failure is silently ignored while the remote-tier
write failure is logged as exactly one warning, and the local write is
still attempted. -/
theorem c7_write_failures_never_fail_get (cfg : Config) (st : St) (q : Query)
    (loader : ILoader) (v : Nat)
    (hlf : st.localDB.setFails = true) (hrf : st.remoteDB.setFails = true)
    (hs : localShortCircuits cfg st q = false)
    (hv : st.remoteDB.store q.fullPath = .absent)
    (hdc : cfg.deepcopy_result = false) :
    (loader.loadErr = none → loader.loadVal = .val v →
      (getWithLoader cfg st q loader).2 = .ok (.val v)
      ∧ (getWithLoader cfg st q loader).1.warnings = st.warnings + 1
      ∧ (cfg.localConfigured = true →
          (getWithLoader cfg st q loader).1.localWrites
            = st.localWrites ++ [⟨q.fullPath, .val v, cfg.local_cdb_ex⟩]))
    ∧ (loader.loadErr = some .errNoEntry → cfg.cache_no_entry = true →
      (getWithLoader cfg st q loader).2 = .fail (.wrap (loadFailMsg q) .errNoEntry)
      ∧ (getWithLoader cfg st q loader).1.warnings = st.warnings + 1) := by
  constructor
  · intro hle hlv
    rcases hloc : cfg.localConfigured
    · simp [getWithLoader, sfBody, query, cacheGet, cacheGetRemote, CacheDB.get,
            loadDB, cacheSet, remoteSet, localCacheSet, CacheDB.set,
            hle, hlv, hloc, hv, hlf, hrf, hdc]
    · simp only [localShortCircuits, hloc, Bool.true_and] at hs
      rcases hl : st.localDB.store q.fullPath with _ | w | _ | c <;> simp [hl] at hs <;>
        simp [getWithLoader, sfBody, query, cacheGet, cacheGetRemote, CacheDB.get,
              loadDB, cacheSet, remoteSet, localCacheSet, CacheDB.set,
              hle, hlv, hloc, hl, hv, hlf, hrf, hdc]
  · intro hle hcne
    rcases hloc : cfg.localConfigured
    · simp [getWithLoader, sfBody, query, cacheGet, cacheGetRemote, CacheDB.get,
            loadDB, cacheSet, remoteSet, localCacheSet, CacheDB.set,
            hle, hcne, hloc, hv, hlf, hrf]
    · simp only [localShortCircuits, hloc, Bool.true_and] at hs
      rcases hl : st.localDB.store q.fullPath with _ | w | _ | c <;> simp [hl] at hs <;>
        simp [getWithLoader, sfBody, query, cacheGet, cacheGetRemote, CacheDB.get,
              loadDB, cacheSet, remoteSet, localCacheSet, CacheDB.set,
              hle, hcne, hloc, hl, hv, hlf, hrf]

/-- A fresh state whose tiers hold `l` and `r` and whose Sets both
fail. -/
def mkStSetFail (l r : CEntry) : St :=
  ⟨⟨fun _ => l, true, false⟩, ⟨fun _ => r, true, false⟩, [], [], 0, 0, 0, 0⟩

/-- Witness for C7: with both tiers' Set failing, a successful load
still delivers the value (one warning logged, local write attempted),
and a not-found load still yields EntryNotFound. -/
theorem c7_write_failures_never_fail_get_witness :
    (getWithLoader wcfg (mkStSetFail .absent .absent) wq (okLoader 5)).2 = .ok (.val 5)
    ∧ (getWithLoader wcfg (mkStSetFail .absent .absent) wq (okLoader 5)).1.warnings = 1
    ∧ (getWithLoader wcfg (mkStSetFail .absent .absent) wq (okLoader 5)).1.localWrites
        = [⟨wq.fullPath, .val 5, 1⟩]
    ∧ (getWithLoader wcfg (mkStSetFail .absent .absent) wq nfLoader).2
        = .fail (.wrap (loadFailMsg wq) .errNoEntry) := by
  have h1 := (c7_write_failures_never_fail_get wcfg (mkStSetFail .absent .absent) wq
      (okLoader 5) 5 rfl rfl rfl rfl rfl).1 rfl rfl
  have h2 := (c7_write_failures_never_fail_get wcfg (mkStSetFail .absent .absent) wq
      nfLoader 0 rfl rfl rfl rfl rfl).2 rfl rfl
  exact ⟨h1.1, h1.2.1, h1.2.2 rfl, h2.1⟩

/-- Claim C10: in isolation-copy mode, when the loader succeeds but
serializing the fresh value fails, the call fails with the
encode failure wrapped in the load-failure context, even though the
value was already written into both cache tiers by the preceding
cache-set step — the cache writes are not rolled back. -/
theorem c10_isolation_copy_encode_failure (cfg : Config) (st : St) (q : Query)
    (loader : ILoader) (v : Nat)
    (hdc : cfg.deepcopy_result = true) (hek : cfg.encodeOk = false)
    (hle : loader.loadErr = none) (hlv : loader.loadVal = .val v)
    (hs : localShortCircuits cfg st q = false)
    (hv : st.remoteDB.store q.fullPath = .absent)
    (hlf : st.localDB.setFails = false) (hrf : st.remoteDB.setFails = false) :
    (getWithLoader cfg st q loader).2 = .fail (.wrap (loadFailMsg q) .encodeFail)
    ∧ (cfg.localConfigured = true →
        (getWithLoader cfg st q loader).1.localDB.store q.fullPath = .pos v)
    ∧ (getWithLoader cfg st q loader).1.remoteDB.store q.fullPath = .pos v := by
  rcases hloc : cfg.localConfigured
  · simp [getWithLoader, sfBody, query, cacheGet, cacheGetRemote, CacheDB.get,
          loadDB, cacheSet, remoteSet, localCacheSet, CacheDB.set,
          hdc, hek, hle, hlv, hloc, hv, hlf, hrf]
  · simp only [localShortCircuits, hloc, Bool.true_and] at hs
    rcases hl : st.localDB.store q.fullPath with _ | w | _ | c <;> simp [hl] at hs <;>
      simp [getWithLoader, sfBody, query, cacheGet, cacheGetRemote, CacheDB.get,
            loadDB, cacheSet, remoteSet, localCacheSet, CacheDB.set,
            hdc, hek, hle, hlv, hloc, hl, hv, hlf, hrf]

/-- Configuration with isolation-copy enabled and a value whose msgpack
encoding fails. -/
def dcFailCfg : Config := ⟨true, 1, true, 5, true, false⟩

/-- Witness for C10: with isolation-copy on and encoding failing, the
call fails with the wrapped encode error while both tiers hold the
freshly loaded value. -/
theorem c10_isolation_copy_encode_failure_witness :
    (getWithLoader dcFailCfg (mkSt .absent .absent) wq (okLoader 6)).2
      = .fail (.wrap (loadFailMsg wq) .encodeFail)
    ∧ (getWithLoader dcFailCfg (mkSt .absent .absent) wq (okLoader 6)).1.localDB.store
        wq.fullPath = .pos 6
    ∧ (getWithLoader dcFailCfg (mkSt .absent .absent) wq (okLoader 6)).1.remoteDB.store
        wq.fullPath = .pos 6 := by
  have h := c10_isolation_copy_encode_failure dcFailCfg (mkSt .absent .absent) wq
      (okLoader 6) 6 rfl rfl rfl rfl rfl rfl rfl rfl
  exact ⟨h.1, h.2.1 rfl, h.2.2⟩

/-- Claim C9: a query must have a non-empty namespace and a non-empty
identifier; constructing one with an empty component fails fast (no
query is produced), so every query in the hands of the public
operations has been validated non-empty. -/
theorem c9_query_validation :
    (∀ s k, (s = "" ∨ k = "") → NewQuery s k = none)
    ∧ (∀ s k p, NewQuery s k = some p → p.space ≠ "" ∧ p.key ≠ "") := by
  constructor
  · intro s k h
    simp [NewQuery, h]
  · intro s k p h
    unfold NewQuery at h
    split at h
    · exact absurd h (by simp)
    · rename_i hc
      push_neg at hc
      injection h with h2
      subst h2
      exact ⟨hc.1, hc.2⟩

/-- Witness for C9: the empty namespace is rejected, while a validated
query has non-empty components. -/
theorem c9_query_validation_witness :
    NewQuery "" "k" = none
    ∧ ((⟨"sp", "k"⟩ : Query).space ≠ "" ∧ (⟨"sp", "k"⟩ : Query).key ≠ "") := by
  constructor
  · exact c9_query_validation.1 "" "k" (Or.inl rfl)
  · exact c9_query_validation.2 "sp" "k" ⟨"sp", "k"⟩ rfl

end Zbec
